import Mathlib

/-!
Shallow embedding of the transcode-and-verify pipeline of the
Twitch-VOD-Downloader repository (src/compression.py, with the remux variant
src/remux_ts_to_mp4.py where noted), together with theorems settling the
specification claims about it.

Modelling conventions:
* Python floats (durations, tolerances, sizes in MB) are modelled as exact
  rationals (ℚ); the float literals 1.2, 0.5, 0.1, 0.001, 0.002, 0.005 of the
  source appear as the rationals 6/5, 1/2, 1/10, 1/1000, 2/1000, 5/1000.
* ffprobe JSON output is modelled as `ProbeData` (stream list plus format
  block).  `float(format.get('duration', 0))` maps a missing duration to 0,
  so `FormatInfo.duration` holds that already-defaulted value.  A stream's
  `nb_frames`, a decimal string in JSON that the code passes through `int`,
  is modelled as `Option Nat`: `none` covers the absent / empty / unparseable
  cases, all of which make the source fall through to the duration check.
* Subprocess calls are oracles: the outcome of each external invocation
  (ffprobe parse, ffmpeg exit) is a parameter of the model, and the model
  counts how many prober / encoder subprocesses each code path would spawn.
* Messages built by f-strings keep their fixed prefix; the interpolated
  numeric values are elided.
-/

/-- One entry of the ffprobe `streams` array, restricted to the fields the
code reads: `codec_type`, `codec_name` (read with default `''`), and
`nb_frames` (absent for most .ts sources). -/
structure MediaStream where
  codec_type : String
  codec_name : Option String
  nb_frames : Option Nat
deriving DecidableEq

/-- The ffprobe `format` block: `float(format.get('duration', 0))`. -/
structure FormatInfo where
  duration : ℚ
deriving DecidableEq

/-- A parsed ffprobe result (`probe_file` returns `None` on any error, so a
failed probe is `Option.none` at use sites). -/
structure ProbeData where
  streams : List MediaStream
  format : FormatInfo
deriving DecidableEq

/-- What `Path.exists()` / `Path.stat().st_size` report for the output file. -/
structure FileStat where
  present : Bool
  st_size : Nat
deriving DecidableEq

/-- Python `str.lower()` for the ASCII codec names compared by the code. -/
def lowerChar (c : Char) : Char :=
  if 65 ≤ c.toNat ∧ c.toNat ≤ 90 then Char.ofNat (c.toNat + 32) else c

/-- Python `str.lower()` on a whole string. -/
def pyLower (s : String) : String := String.mk (s.data.map lowerChar)

/-- `[s for s in streams if s.get('codec_type') == 'video']` -/
def videoStreams (streams : List MediaStream) : List MediaStream :=
  streams.filter (fun s => s.codec_type == "video")

/-- `[s for s in streams if s.get('codec_type') == 'audio']` -/
def audioStreams (streams : List MediaStream) : List MediaStream :=
  streams.filter (fun s => s.codec_type == "audio")

/-- compression.py lines 472-479: the duration-banded percentage tolerance
(0.1 % above two hours, 0.2 % above one hour, 0.5 % above 30 minutes,
5 % otherwise). -/
def percent_tolerance (input_duration : ℚ) : ℚ :=
  if input_duration > 7200 then 1/1000
  else if input_duration > 3600 then 2/1000
  else if input_duration > 1800 then 5/1000
  else 5/100

/-- compression.py line 401: `output_vcodec in ['hevc', 'h265']`. -/
def acceptedVideoCodec (c : String) : Prop := c = "hevc" ∨ c = "h265"

instance (c : String) : Decidable (acceptedVideoCodec c) := by
  unfold acceptedVideoCodec; infer_instance

/-- compression.py line 407: `output_acodec in ['aac','mp3','opus','ac3','eac3']`. -/
def acceptedAudioCodec (c : String) : Prop :=
  c ∈ (["aac", "mp3", "opus", "ac3", "eac3"] : List String)

instance (c : String) : Decidable (acceptedAudioCodec c) := by
  unfold acceptedAudioCodec; infer_instance

/-- compression.py lines 404-408: if the output has an audio stream, its
codec must be one of the accepted playback codecs.  `none` means the check
passes (including the no-audio case). -/
def audioCodecCheck (streams : List MediaStream) : Option String :=
  match audioStreams streams with
  | [] => none
  | oa :: _ =>
    if acceptedAudioCodec (pyLower (Option.getD oa.codec_name (""))) then none
    else some ("Unexpected audio codec: " ++ pyLower (Option.getD oa.codec_name ("")))

/-- compression.py lines 430-450: the best-effort frame-count cross-check on
the first video streams of source and output.  `int()` parse failures and
`ZeroDivisionError` (source frame count 0) are caught and fall through, and
the `elif output_frames` arm only logs, so the only failing outcome is a
difference above 5 % with both counts present and the source count nonzero. -/
def frameCheck (inputVideo outputVideo : MediaStream) : Option String :=
  match inputVideo.nb_frames, outputVideo.nb_frames with
  | some i, some o =>
    if i = 0 then none
    else
      if |(o : ℚ) - (i : ℚ)| / (i : ℚ) * 100 > 1 then
        if |(o : ℚ) - (i : ℚ)| / (i : ℚ) * 100 > 5 then
          some ("Frame count mismatch")
        else none
      else none
  | _, _ => none

/-- compression.py lines 464-504: the adaptive duration comparison.  For a
source above 30 minutes a difference beyond the banded tolerance fails only
above 10x the band (otherwise it is a logged warning); at or below 30 minutes
the output must lie within 120 % / 50 % of the source.  A source duration of
0 (missing metadata) skips the comparison entirely. -/
def durationCheck (input_duration output_duration : ℚ) : Option String :=
  if input_duration > 0 then
    if input_duration > 1800 then
      if |input_duration - output_duration| / input_duration > percent_tolerance input_duration then
        if |input_duration - output_duration| / input_duration > percent_tolerance input_duration * 10 then
          some ("Duration difference too large")
        else none
      else none
    else
      if output_duration > input_duration * (6/5) then
        some ("Output duration much longer than input")
      else if output_duration / input_duration < 1/2 then
        some ("Output duration too short")
      else none
  else none

/-- compression.py lines 351-523, `verify_compression`.  The two probes are
passed as oracles (`none` = `probe_file` returned `None`), `outStat` is the
output file's stat and `inputSizeBytes` the source file's size.  The
`tolerance` parameter mirrors the Python signature's unused default argument.
The result is `none` exactly when the function would raise an uncaught
exception: `input_video[0]` at line 427 raises `IndexError` when the probed
source has no video stream. -/
def verify_compression (input_probe output_probe : Option ProbeData)
    (outStat : FileStat) (inputSizeBytes : Nat) (tolerance : ℚ) :
    Option (Bool × String) :=
  match input_probe with
  | none => some (false, "Failed to probe input file")
  | some inP =>
    match output_probe with
    | none => some (false, "Failed to probe output file")
    | some outP =>
      if outStat.present = false ∨ outStat.st_size = 0 then
        some (false, "Output file is empty or doesn't exist")
      else
        match videoStreams outP.streams with
        | [] => some (false, "Output has no video stream")
        | ov :: _ =>
          if audioStreams inP.streams ≠ [] ∧ audioStreams outP.streams = [] then
            some (false, "Output missing audio stream that was in input")
          else
            if ¬ acceptedVideoCodec (pyLower (Option.getD ov.codec_name (""))) then
              some (false, "Expected HEVC codec, got: " ++ pyLower (Option.getD ov.codec_name ("")))
            else
              match audioCodecCheck outP.streams with
              | some m => some (false, m)
              | none =>
                if outP.format.duration = 0 then
                  some (false, "Output duration is zero")
                else if outP.format.duration < 5 then
                  some (false, "Output duration suspiciously short")
                else
                  match videoStreams inP.streams with
                  | [] => none
                  | iv :: _ =>
                    match frameCheck iv ov with
                    | some m => some (false, m)
                    | none =>
                      match durationCheck inP.format.duration outP.format.duration with
                      | some m => some (false, m)
                      | none =>
                        if (outStat.st_size : ℚ) / (1024 * 1024) < 1/10 then
                          some (false, "Output file suspiciously small")
                        else
                          some (true, "Verification passed")

/-- How the spawned ffmpeg encoder run ends, as sampled at the points where
compression.py lines 293-348 consult the subprocess and the `interrupted`
flag: the process exits with a code (flag never observed set), the flag is
observed set (signal arrived during the monitor loop), a `KeyboardInterrupt`
unwinds the `try` block, or some other exception is raised. -/
inductive EncoderOutcome
  | exitCode (code : Int)
  | interruptedDuring
  | keyboardInterrupt
  | unexpectedError
deriving DecidableEq

/-- How `compress_file` hands control back: normal `True`, normal `False`,
or by re-raising `KeyboardInterrupt` (compression.py line 343). -/
inductive CompressResult
  | ok
  | failed
  | raisedInterrupt
deriving DecidableEq

/-- The inputs `compress_file` depends on: the `interrupted` flag at entry,
the input-probe oracle, the `--allow-video-only` flag, whether the
destination path exists before the call, the encoder-run outcome, and
whether ffmpeg has (partially or fully) written the destination by the time
the post-run checks look at it. -/
structure CompressInput where
  interrupted : Bool
  inputProbe : Option ProbeData
  allowVideoOnly : Bool
  destExists : Bool
  encoder : EncoderOutcome
  destWritten : Bool
deriving DecidableEq

/-- Observable effect of one `compress_file` call: its result, whether the
destination path exists on return, whether the encoder subprocess was
spawned, whether the call observed the interrupt flag, and how many prober
subprocesses it ran. -/
structure CompressEffect where
  result : CompressResult
  destExists : Bool
  encoderSpawned : Bool
  sawInterrupt : Bool
  proberCalls : Nat
deriving DecidableEq

/-- compression.py lines 234-348, `compress_file`.  Pre-spawn early returns
(flag already set, probe failure, missing video, missing audio without
`--allow-video-only`) touch no file; every post-spawn failure path unlinks
the destination before returning or re-raising. -/
def compress_file (w : CompressInput) : CompressEffect :=
  if w.interrupted then
    ⟨.failed, w.destExists, false, true, 0⟩
  else
    match w.inputProbe with
    | none => ⟨.failed, w.destExists, false, false, 1⟩
    | some pd =>
      if videoStreams pd.streams = [] then
        ⟨.failed, w.destExists, false, false, 1⟩
      else if audioStreams pd.streams = [] ∧ w.allowVideoOnly = false then
        ⟨.failed, w.destExists, false, false, 1⟩
      else
        match w.encoder with
        | .exitCode code =>
          if code ≠ 0 then ⟨.failed, false, true, false, 1⟩
          else ⟨.ok, w.destWritten, true, false, 1⟩
        | .interruptedDuring => ⟨.failed, false, true, true, 1⟩
        | .keyboardInterrupt => ⟨.raisedInterrupt, false, true, true, 1⟩
        | .unexpectedError => ⟨.failed, false, true, false, 1⟩

/-- The `CompressStats` aggregate of compression.py lines 56-65. -/
structure CompressStats where
  total_found : Nat
  skipped_existing : Nat
  processed : Nat
  succeeded : Nat
  failed : Nat
  deleted : Nat
  errors : List (String × String)
deriving DecidableEq

/-- The format-only ffprobe outcome used by `mp4_exists_and_valid`:
`none` bundles every failure mode the code maps to `False` (non-zero exit,
timeout, JSON parse error, missing `format` block, `int`/`float` parse
error); `some` carries the parsed size and duration. -/
structure FormatProbe where
  size : Nat
  duration : ℚ
deriving DecidableEq

/-- compression.py lines 149-191, `mp4_exists_and_valid`.  Returns the
verdict together with the number of prober subprocesses spawned: the ffprobe
call happens only when the path exists. -/
def mp4_exists_and_valid (mp4Exists : Bool) (probe : Option FormatProbe) :
    Bool × Nat :=
  if mp4Exists = false then (false, 0)
  else
    match probe with
    | none => (false, 1)
    | some f => (decide (0 < f.size ∧ 0 < f.duration), 1)

/-- compression.py lines 526-545, `prompt_delete`: `--yes` short-circuits;
otherwise the stripped, lowered reply must be `y` or `yes`; EOF or interrupt
(`none`) declines. -/
def prompt_delete (auto_yes : Bool) (response : Option String) : Bool :=
  if auto_yes then true
  else
    match response with
    | none => false
    | some s => decide (pyLower s.trim = "y" ∨ pyLower s.trim = "yes")

/-- The command-line options of compression.py lines 708-762 that reach
`process_file` or verification. -/
structure Args where
  dry_run : Bool
  auto_yes : Bool
  allow_video_only : Bool
  crf : Nat
  preset : String
  tolerance : ℚ
deriving DecidableEq

/-- The per-file oracles `process_file` consumes: the file's name, the
`interrupted` flag at entry, whether the output path already exists and what
the light probe would report, the oracles `compress_file` needs, the two
verification probes with the output stat and source size, the operator's
reply to the deletion prompt, and whether `Path.unlink` on the source
succeeds. -/
structure FileWorld where
  tsName : String
  interrupted : Bool
  mp4Exists : Bool
  mp4Probe : Option FormatProbe
  compressProbe : Option ProbeData
  encoder : EncoderOutcome
  destWritten : Bool
  inputProbeV : Option ProbeData
  outputProbeV : Option ProbeData
  outStatV : FileStat
  inputSizeBytes : Nat
  promptResponse : Option String
  unlinkOk : Bool
deriving DecidableEq

/-- How `process_file` hands control back: a return value, a propagating
`KeyboardInterrupt`, or a propagating unexpected exception (caught only by
`main`). -/
inductive ProcOutcome
  | returned (b : Bool)
  | raisedInterrupt
  | raisedError
deriving DecidableEq

/-- Observable effect of one `process_file` call: outcome, updated
statistics, whether the source (.ts) and output (.mp4) files exist on
return, subprocess counts, and whether `ts_path.unlink()` was reached. -/
structure ProcEffect where
  outcome : ProcOutcome
  stats : CompressStats
  tsExists : Bool
  mp4Exists : Bool
  proberCalls : Nat
  encoderCalls : Nat
  attemptedSourceDelete : Bool
deriving DecidableEq

/-- compression.py lines 548-630, `process_file`, sequencing skip-if-valid,
dry-run, compression, verification (called without the CLI tolerance, so the
Python default 2.0 applies), statistics and the deletion prompt. -/
def process_file (a : Args) (w : FileWorld) (stats : CompressStats) : ProcEffect :=
  if w.interrupted then
    ⟨.returned false, stats, true, w.mp4Exists, 0, 0, false⟩
  else
    let mv := mp4_exists_and_valid w.mp4Exists w.mp4Probe
    if mv.1 = true then
      ⟨.returned true, { stats with skipped_existing := stats.skipped_existing + 1 },
        true, w.mp4Exists, mv.2, 0, false⟩
    else if a.dry_run = true then
      ⟨.returned true, { stats with processed := stats.processed + 1 },
        true, w.mp4Exists, mv.2, 0, false⟩
    else
      let ce := compress_file
        ⟨false, w.compressProbe, a.allow_video_only, w.mp4Exists, w.encoder, w.destWritten⟩
      let ec : Nat := if ce.encoderSpawned then 1 else 0
      if ce.result = .raisedInterrupt then
        ⟨.raisedInterrupt, stats, true, ce.destExists, mv.2 + ce.proberCalls, ec, false⟩
      else if ce.result = .failed then
        if ce.sawInterrupt then
          ⟨.returned false, stats, true, ce.destExists, mv.2 + ce.proberCalls, ec, false⟩
        else
          ⟨.returned false,
            { stats with failed := stats.failed + 1,
                         errors := stats.errors ++ [(w.tsName, "Compression failed")] },
            true, ce.destExists, mv.2 + ce.proberCalls, ec, false⟩
      else
        match verify_compression w.inputProbeV w.outputProbeV w.outStatV w.inputSizeBytes 2 with
        | none =>
          ⟨.raisedError, stats, true, ce.destExists, mv.2 + ce.proberCalls + 2, ec, false⟩
        | some (success, message) =>
          if success = false then
            ⟨.returned false,
              { stats with failed := stats.failed + 1,
                           errors := stats.errors ++ [(w.tsName, message)] },
              true, ce.destExists, mv.2 + ce.proberCalls + 2, ec, false⟩
          else
            if prompt_delete a.auto_yes w.promptResponse then
              if w.unlinkOk then
                ⟨.returned true,
                  { stats with succeeded := stats.succeeded + 1,
                               processed := stats.processed + 1,
                               deleted := stats.deleted + 1 },
                  false, ce.destExists, mv.2 + ce.proberCalls + 2, ec, true⟩
              else
                ⟨.returned true,
                  { stats with succeeded := stats.succeeded + 1,
                               processed := stats.processed + 1 },
                  true, ce.destExists, mv.2 + ce.proberCalls + 2, ec, true⟩
            else
              ⟨.returned true,
                { stats with succeeded := stats.succeeded + 1,
                             processed := stats.processed + 1 },
                true, ce.destExists, mv.2 + ce.proberCalls + 2, ec, false⟩

/-- `Path.name` of a path represented as its list of components (Python
compares `Path` values by their component tuples, so a path is modelled as
`List String`). -/
def entryName (p : List String) : String := Option.getD p.getLast? ("")

/-- Python `str.startswith`: prefix test on the character lists. -/
def pyStartswith (pre s : String) : Bool := List.isPrefixOf pre.data s.data

/-- Python `str` comparison (`<`): lexicographic on code points. -/
def strLtB : List Char → List Char → Bool
  | [], [] => false
  | [], _ :: _ => true
  | _ :: _, [] => false
  | a :: as, b :: bs =>
    if a.toNat < b.toNat then true
    else if b.toNat < a.toNat then false
    else strLtB as bs

/-- Python `PurePath` comparison (`<`): lexicographic on the component
tuple, strings compared as above. -/
def pathLtB : List String → List String → Bool
  | [], [] => false
  | [], _ :: _ => true
  | _ :: _, [] => false
  | a :: as, b :: bs =>
    if strLtB a.data b.data then true
    else if strLtB b.data a.data then false
    else pathLtB as bs

/-- The non-strict path order `sorted` arranges by: `p ≤ q` iff `¬ q < p`. -/
def pathLe (p q : List String) : Bool := !(pathLtB q p)

/-- compression.py lines 124-141, `find_ts_files`: glob, drop AppleDouble
`._` names, sort.  The glob result (already restricted to the `*.ts` /
`**/*.ts` pattern by the directory and recursion flag) is the input list;
Python's stable `sorted` on `Path` is modelled as insertion sort under the
lexicographic order on component lists. -/
def find_ts_files (globbed : List (List String)) : List (List String) :=
  List.insertionSort (fun p q => pathLe p q = true)
    (globbed.filter (fun f => !(pyStartswith ("._") (entryName f))))

/-- remux_ts_to_mp4.py lines 124-137, `find_ts_files`: identical glob and
sort but no AppleDouble filtering. -/
def find_ts_files_remux (globbed : List (List String)) : List (List String) :=
  List.insertionSort (fun p q => pathLe p q = true) globbed

/-- Sample source-side video stream (H.264, no frame count), as ffprobe
reports for a Twitch .ts capture. -/
def vidH264 : MediaStream := ⟨"video", some ("h264"), none⟩

/-- Sample output-side video stream (HEVC, no frame count). -/
def vidHevc : MediaStream := ⟨"video", some ("hevc"), none⟩

/-- Sample AAC audio stream. -/
def audAac : MediaStream := ⟨"audio", some ("aac"), none⟩

/-- Sample source probe: H.264 video plus AAC audio, given duration. -/
def srcProbe (d : ℚ) : ProbeData := ⟨[vidH264, audAac], ⟨d⟩⟩

/-- Sample output probe: HEVC video plus AAC audio, given duration. -/
def outProbe (d : ℚ) : ProbeData := ⟨[vidHevc, audAac], ⟨d⟩⟩

/-- Sample output probe with the audio stream dropped. -/
def outProbeVideoOnly (d : ℚ) : ProbeData := ⟨[vidHevc], ⟨d⟩⟩

/-!  Helper lemmas about the embedded definitions. -/

lemma strLtB_asymm : ∀ a b, strLtB a b = true → strLtB b a = false
  | [], [] => by simp [strLtB]
  | [], _ :: _ => by simp [strLtB]
  | _ :: _, [] => by simp [strLtB]
  | a :: as, b :: bs => by
    intro h
    simp only [strLtB] at h ⊢
    by_cases h1 : a.toNat < b.toNat
    · rw [if_neg (by omega : ¬ b.toNat < a.toNat), if_pos h1]
    · rw [if_neg h1] at h
      by_cases h2 : b.toNat < a.toNat
      · rw [if_pos h2] at h; exact absurd h (by simp)
      · rw [if_neg h2] at h
        rw [if_neg h2, if_neg h1]
        exact strLtB_asymm as bs h

lemma strLtB_eq_of_not : ∀ a b, strLtB a b = false → strLtB b a = false → a = b
  | [], [] => by intro _ _; rfl
  | [], _ :: _ => by simp [strLtB]
  | _ :: _, [] => by simp [strLtB]
  | a :: as, b :: bs => by
    intro h h2
    simp only [strLtB] at h h2
    by_cases h1 : a.toNat < b.toNat
    · rw [if_pos h1] at h; exact absurd h (by simp)
    · rw [if_neg h1] at h
      by_cases h3 : b.toNat < a.toNat
      · rw [if_pos h3] at h2; exact absurd h2 (by simp)
      · rw [if_neg h3] at h
        rw [if_neg h3, if_neg h1] at h2
        have h5 : a.toNat = b.toNat := by omega
        have hc : a = b := Char.ext (UInt32.ext h5)
        rw [hc, strLtB_eq_of_not as bs h h2]

lemma strLtB_trans : ∀ a b c, strLtB a b = true → strLtB b c = true → strLtB a c = true
  | [], [], _ => by simp [strLtB]
  | [], _ :: _, [] => by intro h h2; exact absurd h2 (by simp [strLtB])
  | [], _ :: _, _ :: _ => by simp [strLtB]
  | _ :: _, [], _ => by simp [strLtB]
  | a :: as, b :: bs, [] => by intro h h2; exact absurd h2 (by simp [strLtB])
  | a :: as, b :: bs, c :: cs => by
    intro hab hbc
    simp only [strLtB] at hab hbc ⊢
    by_cases h1 : a.toNat < b.toNat
    · by_cases h2 : b.toNat < c.toNat
      · rw [if_pos (by omega : a.toNat < c.toNat)]
      · rw [if_neg h2] at hbc
        by_cases h3 : c.toNat < b.toNat
        · rw [if_pos h3] at hbc; exact absurd hbc (by simp)
        · rw [if_pos (by omega : a.toNat < c.toNat)]
    · rw [if_neg h1] at hab
      by_cases h2 : b.toNat < a.toNat
      · rw [if_pos h2] at hab; exact absurd hab (by simp)
      · rw [if_neg h2] at hab
        by_cases h3 : b.toNat < c.toNat
        · rw [if_pos (by omega : a.toNat < c.toNat)]
        · rw [if_neg h3] at hbc
          by_cases h4 : c.toNat < b.toNat
          · rw [if_pos h4] at hbc; exact absurd hbc (by simp)
          · rw [if_neg h4] at hbc
            rw [if_neg (by omega : ¬ a.toNat < c.toNat),
              if_neg (by omega : ¬ c.toNat < a.toNat)]
            exact strLtB_trans as bs cs hab hbc

lemma pathLtB_asymm : ∀ p q, pathLtB p q = true → pathLtB q p = false
  | [], [] => by simp [pathLtB]
  | [], _ :: _ => by simp [pathLtB]
  | _ :: _, [] => by simp [pathLtB]
  | a :: as, b :: bs => by
    intro h
    simp only [pathLtB] at h ⊢
    by_cases h1 : strLtB a.data b.data = true
    · rw [if_neg (by simp [strLtB_asymm _ _ h1]), if_pos h1]
    · rw [if_neg h1] at h
      by_cases h2 : strLtB b.data a.data = true
      · rw [if_pos h2] at h; exact absurd h (by simp)
      · rw [if_neg h2] at h
        rw [if_neg h2, if_neg h1]
        exact pathLtB_asymm as bs h

lemma pathLtB_trans : ∀ p q r, pathLtB p q = true → pathLtB q r = true → pathLtB p r = true
  | [], [], _ => by simp [pathLtB]
  | [], _ :: _, [] => by intro h h2; exact absurd h2 (by simp [pathLtB])
  | [], _ :: _, _ :: _ => by simp [pathLtB]
  | _ :: _, [], _ => by simp [pathLtB]
  | a :: as, b :: bs, [] => by intro h h2; exact absurd h2 (by simp [pathLtB])
  | a :: as, b :: bs, c :: cs => by
    intro hab hbc
    simp only [pathLtB] at hab hbc ⊢
    by_cases h1 : strLtB a.data b.data = true
    · by_cases h2 : strLtB b.data c.data = true
      · rw [if_pos (strLtB_trans _ _ _ h1 h2)]
      · rw [if_neg h2] at hbc
        by_cases h3 : strLtB c.data b.data = true
        · rw [if_pos h3] at hbc; exact absurd hbc (by simp)
        · rw [if_neg h3] at hbc
          have hbceq : b.data = c.data :=
            strLtB_eq_of_not _ _ (by simpa using h2) (by simpa using h3)
          rw [if_pos (hbceq ▸ h1)]
    · rw [if_neg h1] at hab
      by_cases h2 : strLtB b.data a.data = true
      · rw [if_pos h2] at hab; exact absurd hab (by simp)
      · rw [if_neg h2] at hab
        have habeq : a.data = b.data :=
          strLtB_eq_of_not _ _ (by simpa using h1) (by simpa using h2)
        by_cases h3 : strLtB b.data c.data = true
        · rw [if_pos (habeq ▸ h3)]
        · rw [if_neg h3] at hbc
          by_cases h4 : strLtB c.data b.data = true
          · rw [if_pos h4] at hbc; exact absurd hbc (by simp)
          · rw [if_neg h4] at hbc
            rw [if_neg (by rw [habeq]; exact h3), if_neg (by rw [habeq]; exact h4)]
            exact pathLtB_trans as bs cs hab hbc

lemma pathLtB_eq_of_not : ∀ p q, pathLtB p q = false → pathLtB q p = false → p = q
  | [], [] => by intro _ _; rfl
  | [], _ :: _ => by simp [pathLtB]
  | _ :: _, [] => by simp [pathLtB]
  | a :: as, b :: bs => by
    intro h h2
    simp only [pathLtB] at h h2
    by_cases h1 : strLtB a.data b.data = true
    · rw [if_pos h1] at h; exact absurd h (by simp)
    · rw [if_neg h1] at h
      by_cases h3 : strLtB b.data a.data = true
      · rw [if_pos h3] at h2; exact absurd h2 (by simp)
      · rw [if_neg h3] at h
        rw [if_neg h3, if_neg h1] at h2
        have hd : a.data = b.data :=
          strLtB_eq_of_not _ _ (by simpa using h1) (by simpa using h3)
        have hs : a = b := by cases a; cases b; exact congrArg String.mk hd
        rw [hs, pathLtB_eq_of_not as bs h h2]

lemma pathLe_total (p q : List String) : pathLe p q = true ∨ pathLe q p = true := by
  unfold pathLe
  by_cases h : pathLtB q p = true
  · right; simp [pathLtB_asymm _ _ h]
  · left; simp [h]

lemma pathLe_trans (p q r : List String) (h1 : pathLe p q = true) (h2 : pathLe q r = true) :
    pathLe p r = true := by
  unfold pathLe at h1 h2 ⊢
  simp only [Bool.not_eq_true'] at h1 h2 ⊢
  by_contra hc
  have h : pathLtB r p = true := by simpa using hc
  by_cases hpq : pathLtB p q = true
  · have := pathLtB_trans r p q h hpq
    rw [this] at h2; exact absurd h2 (by simp)
  · have hpq2 : pathLtB p q = false := by simpa using hpq
    have : p = q := pathLtB_eq_of_not p q hpq2 h1
    rw [this] at h
    rw [h] at h2; exact absurd h2 (by simp)

/-- Under the checks that precede the frame and duration comparison,
`verify_compression` reduces to the duration check followed by the size
floor. -/
lemma verify_eval (inP outP : ProbeData) (outStat : FileStat) (n : Nat) (t : ℚ)
    (ov : MediaStream) (ovs : List MediaStream) (iv : MediaStream) (ivs : List MediaStream)
    (hpres : outStat.present = true) (hsz : outStat.st_size ≠ 0)
    (hov : videoStreams outP.streams = ov :: ovs)
    (hau : ¬(audioStreams inP.streams ≠ [] ∧ audioStreams outP.streams = []))
    (hvc : acceptedVideoCodec (pyLower (Option.getD ov.codec_name (""))))
    (hac : audioCodecCheck outP.streams = none)
    (hod0 : outP.format.duration ≠ 0) (hod5 : ¬ outP.format.duration < 5)
    (hiv : videoStreams inP.streams = iv :: ivs)
    (hfr : frameCheck iv ov = none) :
    verify_compression (some inP) (some outP) outStat n t =
      match durationCheck inP.format.duration outP.format.duration with
      | some m => some (false, m)
      | none =>
        if (outStat.st_size : ℚ) / (1024 * 1024) < 1/10 then
          some (false, "Output file suspiciously small")
        else
          some (true, "Verification passed") := by
  have hcond : ¬(outStat.present = false ∨ outStat.st_size = 0) := by
    rw [hpres]; simp [hsz]
  simp only [verify_compression, if_neg hcond, hov, if_neg hau,
    if_neg (not_not_intro hvc), hac, if_neg hod0, if_neg hod5, hiv, hfr]

/-- Every tolerance band of `percent_tolerance` is positive. -/
lemma percent_tolerance_pos (d : ℚ) : 0 < percent_tolerance d := by
  unfold percent_tolerance; split_ifs <;> norm_num

/-- Short-video rule, upper bound: output longer than 120 % of source. -/
lemma durationCheck_short_long {d od : ℚ} (hd0 : 0 < d) (hd : d ≤ 1800)
    (h : od > d * (6/5)) :
    durationCheck d od = some ("Output duration much longer than input") := by
  unfold durationCheck
  rw [if_pos hd0, if_neg (by linarith : ¬ d > 1800), if_pos h]

/-- Short-video rule, lower bound: output below half the source duration. -/
lemma durationCheck_short_tooShort {d od : ℚ} (hd0 : 0 < d) (hd : d ≤ 1800)
    (h : od < d / 2) :
    durationCheck d od = some ("Output duration too short") := by
  unfold durationCheck
  rw [if_pos hd0, if_neg (by linarith : ¬ d > 1800),
    if_neg (by nlinarith : ¬ od > d * (6/5)),
    if_pos (by rw [div_lt_iff₀ hd0]; linarith)]

/-- Short-video rule, pass: output within [0.5 d, 1.2 d]. -/
lemma durationCheck_short_pass {d od : ℚ} (hd0 : 0 < d) (hd : d ≤ 1800)
    (h1 : d / 2 ≤ od) (h2 : od ≤ d * (6/5)) :
    durationCheck d od = none := by
  unfold durationCheck
  rw [if_pos hd0, if_neg (by linarith : ¬ d > 1800),
    if_neg (by linarith : ¬ od > d * (6/5)),
    if_neg (by rw [not_lt, le_div_iff₀ hd0]; linarith)]

/-- Long-video rule, pass: difference within 10x the banded tolerance. -/
lemma durationCheck_long_pass {d od : ℚ} (hd : 1800 < d)
    (h : |d - od| / d ≤ percent_tolerance d * 10) :
    durationCheck d od = none := by
  unfold durationCheck
  rw [if_pos (by linarith : d > 0), if_pos hd]
  split_ifs with h1 h2
  · linarith
  · rfl
  · rfl

/-- Long-video rule, hard failure: difference beyond 10x the banded
tolerance. -/
lemma durationCheck_long_fail {d od : ℚ} (hd : 1800 < d)
    (h : |d - od| / d > percent_tolerance d * 10) :
    durationCheck d od = some ("Duration difference too large") := by
  have hpt := percent_tolerance_pos d
  unfold durationCheck
  rw [if_pos (by linarith : d > 0), if_pos hd,
    if_pos (by linarith : |d - od| / d > percent_tolerance d),
    if_pos h]

/-- C5: whenever the probed source has an audio stream and the probed output
has none (with the probe, existence/size and video-stream checks passing),
`verify_compression` fails with exactly "Output missing audio stream that was
in input"; the statement quantifies over arbitrary codec names, durations,
frame counts and sizes, so the verdict is decided before and independently of
the codec and duration checks. -/
theorem C5_missing_audio_fails (inP outP : ProbeData) (outStat : FileStat)
    (n : Nat) (t : ℚ) (ov : MediaStream) (ovs : List MediaStream)
    (hpres : outStat.present = true) (hsz : outStat.st_size ≠ 0)
    (hov : videoStreams outP.streams = ov :: ovs)
    (hia : audioStreams inP.streams ≠ [])
    (hoa : audioStreams outP.streams = []) :
    verify_compression (some inP) (some outP) outStat n t =
      some (false, "Output missing audio stream that was in input") := by
  have hcond : ¬(outStat.present = false ∨ outStat.st_size = 0) := by
    rw [hpres]; simp [hsz]
  simp only [verify_compression, if_neg hcond, hov, if_pos (And.intro hia hoa)]

/-- C5 witness: a source with audio against an audio-less output whose
duration (0) and size (5 bytes, below every floor) would fail later checks,
yet the audio verdict fires first. -/
theorem C5_missing_audio_fails_witness :
    verify_compression (some (srcProbe 600)) (some (outProbeVideoOnly 0))
      (⟨true, 5⟩ : FileStat) 7 2 =
      some (false, "Output missing audio stream that was in input") :=
  C5_missing_audio_fails (srcProbe 600) (outProbeVideoOnly 0) ⟨true, 5⟩ 7 2
    vidHevc [] rfl (by decide) rfl (by decide) rfl

/-- C6: for every source/output pair that reaches and passes the adaptive
duration comparison (whatever the measured durations were), an output file
smaller than the 0.1 MB floor makes `verify_compression` fail with the
"suspiciously small" message. -/
theorem C6_small_output_fails (inP outP : ProbeData) (outStat : FileStat)
    (n : Nat) (t : ℚ) (ov iv : MediaStream) (ovs ivs : List MediaStream)
    (hpres : outStat.present = true) (hsz : outStat.st_size ≠ 0)
    (hov : videoStreams outP.streams = ov :: ovs)
    (hau : ¬(audioStreams inP.streams ≠ [] ∧ audioStreams outP.streams = []))
    (hvc : acceptedVideoCodec (pyLower (Option.getD ov.codec_name (""))))
    (hac : audioCodecCheck outP.streams = none)
    (hod0 : outP.format.duration ≠ 0) (hod5 : ¬ outP.format.duration < 5)
    (hiv : videoStreams inP.streams = iv :: ivs)
    (hfr : frameCheck iv ov = none)
    (hdc : durationCheck inP.format.duration outP.format.duration = none)
    (hsmall : (outStat.st_size : ℚ) / (1024 * 1024) < 1/10) :
    verify_compression (some inP) (some outP) outStat n t =
      some (false, "Output file suspiciously small") := by
  rw [verify_eval inP outP outStat n t ov ovs iv ivs hpres hsz hov hau hvc hac
    hod0 hod5 hiv hfr, hdc]
  simp only [if_pos hsmall]

/-- C6 witness: the spec's scenario, a 50 KB (51200-byte) output with
matching 600 s durations, fails as "suspiciously small". -/
theorem C6_small_output_fails_witness :
    verify_compression (some (srcProbe 600)) (some (outProbe 600))
      (⟨true, 51200⟩ : FileStat) 999999999 2 =
      some (false, "Output file suspiciously small") :=
  C6_small_output_fails (srcProbe 600) (outProbe 600) ⟨true, 51200⟩ 999999999 2
    vidHevc vidH264 [] [] rfl (by decide) rfl (by decide) (by decide) (by decide)
    (by norm_num [outProbe]) (by norm_num [outProbe]) rfl rfl
    (durationCheck_short_pass (by norm_num [srcProbe]) (by norm_num [srcProbe])
      (by norm_num [srcProbe, outProbe]) (by norm_num [srcProbe, outProbe]))
    (by norm_num)

/-- C2: for a source strictly above 1800 s, with every check other than the
duration comparison passing (probes, existence, streams, codecs, duration
floor, frame check and the later size floor), the duration comparison makes
`verify_compression` fail exactly when the percentage difference exceeds 10x
the banded tolerance; at or below the 10x band the function passes (the
beyond-band-but-within-10x case is only a logged warning). -/
theorem C2_long_band (inP outP : ProbeData) (outStat : FileStat)
    (n : Nat) (t : ℚ) (ov iv : MediaStream) (ovs ivs : List MediaStream)
    (hpres : outStat.present = true) (hsz : outStat.st_size ≠ 0)
    (hov : videoStreams outP.streams = ov :: ovs)
    (hau : ¬(audioStreams inP.streams ≠ [] ∧ audioStreams outP.streams = []))
    (hvc : acceptedVideoCodec (pyLower (Option.getD ov.codec_name (""))))
    (hac : audioCodecCheck outP.streams = none)
    (hod0 : outP.format.duration ≠ 0) (hod5 : ¬ outP.format.duration < 5)
    (hiv : videoStreams inP.streams = iv :: ivs)
    (hfr : frameCheck iv ov = none)
    (hd : 1800 < inP.format.duration)
    (hsize : ¬ (outStat.st_size : ℚ) / (1024 * 1024) < 1/10) :
    (|inP.format.duration - outP.format.duration| / inP.format.duration ≤
        percent_tolerance inP.format.duration * 10 →
      verify_compression (some inP) (some outP) outStat n t =
        some (true, "Verification passed"))
    ∧ (|inP.format.duration - outP.format.duration| / inP.format.duration >
        percent_tolerance inP.format.duration * 10 →
      verify_compression (some inP) (some outP) outStat n t =
        some (false, "Duration difference too large")) := by
  constructor
  · intro h
    rw [verify_eval inP outP outStat n t ov ovs iv ivs hpres hsz hov hau hvc hac
      hod0 hod5 hiv hfr, durationCheck_long_pass hd h]
    simp only [if_neg hsize]
  · intro h
    rw [verify_eval inP outP outStat n t ov ovs iv ivs hpres hsz hov hau hvc hac
      hod0 hod5 hiv hfr, durationCheck_long_fail hd h]

/-- C2 witness: the spec's scenario — source 8100 s, output 8110.1 s.  The
0.1247 % difference exceeds the 0.1 % band for a two-hour-plus source but is
within 10x of it, and verification passes. -/
theorem C2_long_band_witness :
    (1/1000 : ℚ) < |(8100 : ℚ) - 81101/10| / 8100 ∧
    verify_compression (some (srcProbe 8100)) (some (outProbe (81101/10)))
      (⟨true, 10485760⟩ : FileStat) 999999999 2 =
      some (true, "Verification passed") := by
  have habs : |(8100 : ℚ) - 81101/10| = 101/10 := by
    rw [abs_of_nonpos] <;> norm_num
  constructor
  · rw [habs]; norm_num
  · exact (C2_long_band (srcProbe 8100) (outProbe (81101/10)) ⟨true, 10485760⟩
      999999999 2 vidHevc vidH264 [] [] rfl (by decide) rfl (by decide)
      (by decide) (by decide) (by norm_num [outProbe]) (by norm_num [outProbe])
      rfl rfl (by norm_num [srcProbe]) (by norm_num)).1
      (by show |(8100 : ℚ) - 81101/10| / 8100 ≤ percent_tolerance 8100 * 10
          rw [habs, show percent_tolerance 8100 = 1/1000 by norm_num [percent_tolerance]]
          norm_num)

/-- C1 counterexample to the literal claim: two concrete runs in which every
check before the duration comparison passes and the source duration is at
most 1800 s, yet (first) an output whose duration sits inside [0.5 d, 1.2 d]
still fails — the later 0.1 MB size floor rejects a 51200-byte file — and
(second) a source whose probed duration is 0 lets an output duration of 10 s
(beyond 1.2 x 0 = 0) pass, because `input_duration > 0` gates the whole
comparison. -/
theorem C1_counterexample :
    (((600 : ℚ) / 2 ≤ 600 ∧ (600 : ℚ) ≤ 600 * (6/5)) ∧
      verify_compression (some (srcProbe 600)) (some (outProbe 600))
        (⟨true, 51200⟩ : FileStat) 999999999 2 =
        some (false, "Output file suspiciously small"))
    ∧ (((0 : ℚ) ≤ 1800 ∧ (10 : ℚ) > 0 * (6/5)) ∧
      verify_compression (some (srcProbe 0)) (some (outProbe 10))
        (⟨true, 10485760⟩ : FileStat) 999999999 2 =
        some (true, "Verification passed")) := by
  refine ⟨⟨by norm_num, ?_⟩, ⟨by norm_num, ?_⟩⟩
  · rw [verify_eval (srcProbe 600) (outProbe 600) ⟨true, 51200⟩ 999999999 2
      vidHevc [] vidH264 [] rfl (by decide) rfl (by decide) (by decide) (by decide)
      (by norm_num [outProbe]) (by norm_num [outProbe]) rfl rfl,
      durationCheck_short_pass (by norm_num [srcProbe]) (by norm_num [srcProbe])
        (by norm_num [srcProbe, outProbe]) (by norm_num [srcProbe, outProbe])]
    norm_num
  · rw [verify_eval (srcProbe 0) (outProbe 10) ⟨true, 10485760⟩ 999999999 2
      vidHevc [] vidH264 [] rfl (by decide) rfl (by decide) (by decide) (by decide)
      (by norm_num [outProbe]) (by norm_num [outProbe]) rfl rfl,
      show durationCheck (srcProbe 0).format.duration (outProbe 10).format.duration = none
        by norm_num [durationCheck, srcProbe, outProbe]]
    norm_num

/-- C1 (amended): for every source/output pair whose source duration d
satisfies 0 < d ≤ 1800 s, where every check before the duration comparison
passes and the output also clears the later 0.1 MB size floor,
`verify_compression` fails with "Output duration much longer than input"
when the output duration exceeds 1.2 d, fails with "Output duration too
short" when it is below 0.5 d, and passes when it lies in [0.5 d, 1.2 d].
(The original claim is falsified both by d = 0, which skips the comparison,
and by sub-0.1 MB outputs, which fail despite an in-range duration.) -/
theorem C1_short_rules (inP outP : ProbeData) (outStat : FileStat)
    (n : Nat) (t : ℚ) (ov iv : MediaStream) (ovs ivs : List MediaStream)
    (hpres : outStat.present = true) (hsz : outStat.st_size ≠ 0)
    (hov : videoStreams outP.streams = ov :: ovs)
    (hau : ¬(audioStreams inP.streams ≠ [] ∧ audioStreams outP.streams = []))
    (hvc : acceptedVideoCodec (pyLower (Option.getD ov.codec_name (""))))
    (hac : audioCodecCheck outP.streams = none)
    (hod0 : outP.format.duration ≠ 0) (hod5 : ¬ outP.format.duration < 5)
    (hiv : videoStreams inP.streams = iv :: ivs)
    (hfr : frameCheck iv ov = none)
    (hd0 : 0 < inP.format.duration) (hd : inP.format.duration ≤ 1800)
    (hsize : ¬ (outStat.st_size : ℚ) / (1024 * 1024) < 1/10) :
    (outP.format.duration > inP.format.duration * (6/5) →
      verify_compression (some inP) (some outP) outStat n t =
        some (false, "Output duration much longer than input"))
    ∧ (outP.format.duration < inP.format.duration / 2 →
      verify_compression (some inP) (some outP) outStat n t =
        some (false, "Output duration too short"))
    ∧ (inP.format.duration / 2 ≤ outP.format.duration →
      outP.format.duration ≤ inP.format.duration * (6/5) →
      verify_compression (some inP) (some outP) outStat n t =
        some (true, "Verification passed")) := by
  refine ⟨fun h => ?_, fun h => ?_, fun h1 h2 => ?_⟩
  · rw [verify_eval inP outP outStat n t ov ovs iv ivs hpres hsz hov hau hvc hac
      hod0 hod5 hiv hfr, durationCheck_short_long hd0 hd h]
  · rw [verify_eval inP outP outStat n t ov ovs iv ivs hpres hsz hov hau hvc hac
      hod0 hod5 hiv hfr, durationCheck_short_tooShort hd0 hd h]
  · rw [verify_eval inP outP outStat n t ov ovs iv ivs hpres hsz hov hau hvc hac
      hod0 hod5 hiv hfr, durationCheck_short_pass hd0 hd h1 h2]
    simp only [if_neg hsize]

/-- C1 witness: the spec's short-video scenario — source 600 s, output 900 s
(50 % longer, beyond the 120 % rule) fails with "Output duration much longer
than input". -/
theorem C1_short_rules_witness :
    verify_compression (some (srcProbe 600)) (some (outProbe 900))
      (⟨true, 10485760⟩ : FileStat) 999999999 2 =
      some (false, "Output duration much longer than input") :=
  (C1_short_rules (srcProbe 600) (outProbe 900) ⟨true, 10485760⟩ 999999999 2
    vidHevc vidH264 [] [] rfl (by decide) rfl (by decide) (by decide) (by decide)
    (by norm_num [outProbe]) (by norm_num [outProbe]) rfl rfl
    (by norm_num [srcProbe]) (by norm_num [srcProbe]) (by norm_num)).1
    (by norm_num [srcProbe, outProbe])

/-- C3: the tolerance selected by the duration comparison equals 0.1 % for
d > 7200 s, 0.2 % for 3600 < d ≤ 7200, 0.5 % for 1800 < d ≤ 3600 and 5 %
otherwise, and for sources above 1800 s it is monotonically non-increasing
in the source duration. -/
theorem C3_tolerance_bands :
    (∀ d : ℚ,
      (7200 < d → percent_tolerance d = 1/1000)
      ∧ (3600 < d ∧ d ≤ 7200 → percent_tolerance d = 2/1000)
      ∧ (1800 < d ∧ d ≤ 3600 → percent_tolerance d = 5/1000)
      ∧ (d ≤ 1800 → percent_tolerance d = 5/100))
    ∧ (∀ d e : ℚ, 1800 < d → d ≤ e → percent_tolerance e ≤ percent_tolerance d) := by
  constructor
  · intro d
    refine ⟨fun h => ?_, fun h => ?_, fun h => ?_, fun h => ?_⟩ <;>
      · unfold percent_tolerance
        split_ifs <;> first | rfl | (exfalso; first | linarith | linarith [h.1, h.2])
  · intro d e hd hde
    unfold percent_tolerance
    split_ifs <;> linarith

/-- C3 witness: band values at 8100 s, 7000 s, 3000 s and 600 s, and
monotonicity across the 3000 s / 7300 s pair. -/
theorem C3_tolerance_bands_witness :
    percent_tolerance 8100 = 1/1000 ∧ percent_tolerance 7000 = 2/1000
    ∧ percent_tolerance 3000 = 5/1000 ∧ percent_tolerance 600 = 5/100
    ∧ percent_tolerance 7300 ≤ percent_tolerance 3000 :=
  ⟨(C3_tolerance_bands.1 8100).1 (by norm_num),
   (C3_tolerance_bands.1 7000).2.1 (by norm_num),
   (C3_tolerance_bands.1 3000).2.2.1 (by norm_num),
   (C3_tolerance_bands.1 600).2.2.2 (by norm_num),
   C3_tolerance_bands.2 3000 7300 (by norm_num) (by norm_num)⟩

/-- C4 counterexample to the literal claim: a `compress_file` call that ends
in cancellation — the interrupt flag is already set when the call starts —
returns with the (stale, pre-existing) destination file still present: the
early return at the top of the function performs no cleanup. -/
theorem C4_counterexample :
    (compress_file ⟨true, none, false, true, .exitCode 0, false⟩).result = .failed
    ∧ (compress_file ⟨true, none, false, true, .exitCode 0, false⟩).sawInterrupt = true
    ∧ (compress_file ⟨true, none, false, true, .exitCode 0, false⟩).destExists = true :=
  ⟨rfl, rfl, rfl⟩

/-- C4 (amended): for every `compress_file` call that does not end in
success, the destination file is absent on return provided the encoder
subprocess was actually spawned or the destination did not exist beforehand;
moreover a call that never spawns the encoder leaves the destination exactly
as it found it.  (The literal claim fails only when a pre-spawn cancellation
or precondition failure meets a destination file left over from before the
call.) -/
theorem C4_failure_cleanup :
    (∀ w : CompressInput, (compress_file w).result ≠ .ok →
      ((compress_file w).encoderSpawned = true ∨ w.destExists = false) →
      (compress_file w).destExists = false)
    ∧ (∀ w : CompressInput, (compress_file w).encoderSpawned = false →
      (compress_file w).destExists = w.destExists) := by
  constructor
  · rintro ⟨i, p, av, de, enc, dw⟩ hres hsp
    cases i <;> cases p <;> cases enc <;>
      simp_all [compress_file] <;> split_ifs <;> simp_all
  · rintro ⟨i, p, av, de, enc, dw⟩ hsp
    cases i <;> cases p <;> cases enc <;>
      simp_all [compress_file] <;> split_ifs <;> simp_all

/-- C4 witness: a spawned encoder exiting non-zero on a run whose
destination pre-existed: the partial output is deleted before the call
returns. -/
theorem C4_failure_cleanup_witness :
    (compress_file ⟨false, some (srcProbe 600), false, true, .exitCode 1, true⟩).destExists
      = false :=
  C4_failure_cleanup.1 ⟨false, some (srcProbe 600), false, true, .exitCode 1, true⟩
    (by decide) (Or.inl (by decide))

/-- A successful `compress_file` call spawned the encoder, saw no interrupt,
ran one probe, and leaves the destination as ffmpeg wrote it. -/
lemma compress_ok_shape (w : CompressInput) (h : (compress_file w).result = .ok) :
    compress_file w = ⟨.ok, w.destWritten, true, false, 1⟩ := by
  obtain ⟨i, p, av, de, enc, dw⟩ := w
  cases i <;> cases p <;> cases enc <;>
    simp_all [compress_file] <;> split_ifs <;> simp_all

/-- `mp4_exists_and_valid` spawns at most one prober subprocess. -/
lemma mp4_valid_calls_le (e : Bool) (p : Option FormatProbe) :
    (mp4_exists_and_valid e p).2 ≤ 1 := by
  unfold mp4_exists_and_valid
  cases e <;> cases p <;> simp

/-- `mp4_exists_and_valid` spawns no subprocess when the path is absent. -/
lemma mp4_valid_calls_absent (p : Option FormatProbe) :
    (mp4_exists_and_valid false p).2 = 0 := rfl

/-- C7: (first part) when compression succeeded but verification returned a
fail verdict, `process_file` returns `False`, counts one more failure,
appends the diagnostic message to the error list, deletes neither the
transcoded output nor the source, and never reaches the source unlink;
(second part) whichever way a `process_file` call runs, the source unlink is
reached only when verification returned a passing verdict and
`prompt_delete` answered yes (interactively or via `--yes`). -/
theorem C7_verify_fail_bookkeeping :
    (∀ (a : Args) (w : FileWorld) (stats : CompressStats) (msg : String),
      w.interrupted = false →
      (mp4_exists_and_valid w.mp4Exists w.mp4Probe).1 = false →
      a.dry_run = false →
      (compress_file ⟨false, w.compressProbe, a.allow_video_only,
        w.mp4Exists, w.encoder, w.destWritten⟩).result = .ok →
      verify_compression w.inputProbeV w.outputProbeV w.outStatV w.inputSizeBytes 2
        = some (false, msg) →
      (process_file a w stats).outcome = .returned false
      ∧ (process_file a w stats).stats.failed = stats.failed + 1
      ∧ (process_file a w stats).stats.errors = stats.errors ++ [(w.tsName, msg)]
      ∧ (process_file a w stats).mp4Exists = w.destWritten
      ∧ (process_file a w stats).tsExists = true
      ∧ (process_file a w stats).attemptedSourceDelete = false
      ∧ (process_file a w stats).stats.deleted = stats.deleted)
    ∧ (∀ (a : Args) (w : FileWorld) (stats : CompressStats),
      (process_file a w stats).attemptedSourceDelete = true →
      (∃ m, verify_compression w.inputProbeV w.outputProbeV w.outStatV w.inputSizeBytes 2
        = some (true, m))
      ∧ prompt_delete a.auto_yes w.promptResponse = true) := by
  constructor
  · intro a w stats msg hi hmv hdry hok hv
    have hce := compress_ok_shape _ hok
    simp [process_file, hi, hmv, hdry, hce, hv]
  · intro a w stats h
    simp only [process_file] at h
    repeat' split at h
    all_goals simp_all
    all_goals rename_i heq hsucc
    all_goals exact ⟨_, by rw [heq]; simp_all⟩

/-- C7 witness: a run whose transcode succeeds but whose verification fails
("Failed to probe output file") records the message, keeps both files, and
never reaches the source unlink. -/
theorem C7_verify_fail_bookkeeping_witness :
    (process_file ⟨false, false, false, 28, "medium", 2⟩
      ⟨"a.ts", false, false, none, some (srcProbe 600), .exitCode 0, true,
        some (srcProbe 600), none, ⟨false, 0⟩, 0, none, true⟩
      ⟨0, 0, 0, 0, 0, 0, []⟩).stats.failed = 1
    ∧ (process_file ⟨false, false, false, 28, "medium", 2⟩
      ⟨"a.ts", false, false, none, some (srcProbe 600), .exitCode 0, true,
        some (srcProbe 600), none, ⟨false, 0⟩, 0, none, true⟩
      ⟨0, 0, 0, 0, 0, 0, []⟩).stats.errors = [("a.ts", "Failed to probe output file")]
    ∧ (process_file ⟨false, false, false, 28, "medium", 2⟩
      ⟨"a.ts", false, false, none, some (srcProbe 600), .exitCode 0, true,
        some (srcProbe 600), none, ⟨false, 0⟩, 0, none, true⟩
      ⟨0, 0, 0, 0, 0, 0, []⟩).mp4Exists = true
    ∧ (process_file ⟨false, false, false, 28, "medium", 2⟩
      ⟨"a.ts", false, false, none, some (srcProbe 600), .exitCode 0, true,
        some (srcProbe 600), none, ⟨false, 0⟩, 0, none, true⟩
      ⟨0, 0, 0, 0, 0, 0, []⟩).tsExists = true := by
  have h := C7_verify_fail_bookkeeping.1 ⟨false, false, false, 28, "medium", 2⟩
    ⟨"a.ts", false, false, none, some (srcProbe 600), .exitCode 0, true,
      some (srcProbe 600), none, ⟨false, 0⟩, 0, none, true⟩
    ⟨0, 0, 0, 0, 0, 0, []⟩ ("Failed to probe output file") rfl rfl rfl rfl rfl
  exact ⟨h.2.1, h.2.2.1, h.2.2.2.1, h.2.2.2.2.1⟩

/-- C8 counterexample to the literal claim: a dry-run over a candidate whose
output path already exists still spawns one prober subprocess — the
skip-if-valid check (`mp4_exists_and_valid`) runs ffprobe before the
dry-run branch is consulted. -/
theorem C8_counterexample :
    (⟨true, false, false, 28, "medium", 2⟩ : Args).dry_run = true
    ∧ (process_file ⟨true, false, false, 28, "medium", 2⟩
      ⟨"a.ts", false, true, none, none, .exitCode 0, false, none, none,
        ⟨false, 0⟩, 0, none, true⟩
      ⟨0, 0, 0, 0, 0, 0, []⟩).proberCalls = 1 :=
  ⟨rfl, rfl⟩

/-- C8 (amended): in dry-run mode `process_file` never invokes the encoder,
removes no file and never reaches the source unlink; the only possible
subprocess is the single prober run by the skip-if-valid check, which is
skipped when the output path does not exist; the statistics update is one of
the skip increment, the processed increment, or (under a pending interrupt)
no change. -/
theorem C8_dry_run_effects :
    ∀ (a : Args) (w : FileWorld) (stats : CompressStats), a.dry_run = true →
    (process_file a w stats).encoderCalls = 0
    ∧ (process_file a w stats).tsExists = true
    ∧ (process_file a w stats).mp4Exists = w.mp4Exists
    ∧ (process_file a w stats).attemptedSourceDelete = false
    ∧ (process_file a w stats).proberCalls ≤ 1
    ∧ (w.mp4Exists = false → (process_file a w stats).proberCalls = 0)
    ∧ ((process_file a w stats).stats =
          { stats with skipped_existing := stats.skipped_existing + 1 }
        ∨ (process_file a w stats).stats = { stats with processed := stats.processed + 1 }
        ∨ (process_file a w stats).stats = stats) := by
  intro a w stats hdry
  simp only [process_file]
  split_ifs with h1 h2 <;>
    refine ⟨rfl, rfl, rfl, rfl, ?_, fun hm => ?_, ?_⟩
  · simp
  · simp
  · right; right; rfl
  · exact mp4_valid_calls_le _ _
  · rw [hm]; exact mp4_valid_calls_absent w.mp4Probe
  · left; rfl
  · exact mp4_valid_calls_le _ _
  · rw [hm]; exact mp4_valid_calls_absent w.mp4Probe
  · right; left; rfl

/-- C8 witness: the amended dry-run guarantees at a concrete world (output
path present, light probe failing). -/
theorem C8_dry_run_effects_witness :
    (process_file ⟨true, false, false, 28, "medium", 2⟩
      ⟨"a.ts", false, true, none, none, .exitCode 0, false, none, none,
        ⟨false, 0⟩, 0, none, true⟩
      ⟨0, 0, 0, 0, 0, 0, []⟩).encoderCalls = 0
    ∧ (process_file ⟨true, false, false, 28, "medium", 2⟩
      ⟨"a.ts", false, true, none, none, .exitCode 0, false, none, none,
        ⟨false, 0⟩, 0, none, true⟩
      ⟨0, 0, 0, 0, 0, 0, []⟩).proberCalls ≤ 1 := by
  have h := C8_dry_run_effects ⟨true, false, false, 28, "medium", 2⟩
    ⟨"a.ts", false, true, none, none, .exitCode 0, false, none, none,
      ⟨false, 0⟩, 0, none, true⟩
    ⟨0, 0, 0, 0, 0, 0, []⟩ rfl
  exact ⟨h.1, h.2.2.2.2.1⟩

/-- C9 counterexample to the literal claim: the remux variant's discovery
(remux_ts_to_mp4.py) performs no AppleDouble filtering, so a `._`-prefixed
candidate is returned. -/
theorem C9_counterexample :
    find_ts_files_remux [[("._shadow.ts")]] = [[("._shadow.ts")]]
    ∧ pyStartswith ("._") (entryName [("._shadow.ts")]) = true :=
  ⟨by decide, by decide⟩

/-- C9 (amended): the compression tool's discovery returns exactly the glob
matches whose names do not begin with `._`, arranged in the lexicographic
path order (so repeated discovery over an unchanged listing is
deterministic); the remux variant sorts identically but performs no `._`
exclusion. -/
theorem C9_discovery_sorted_filtered :
    (∀ g : List (List String),
      List.Sorted (fun p q => pathLe p q = true) (find_ts_files g)
      ∧ (find_ts_files g).Perm
          (g.filter (fun f => !(pyStartswith ("._") (entryName f))))
      ∧ ∀ p, p ∈ find_ts_files g → pyStartswith ("._") (entryName p) = false)
    ∧ (∀ g : List (List String),
      List.Sorted (fun p q => pathLe p q = true) (find_ts_files_remux g)
      ∧ (find_ts_files_remux g).Perm g) := by
  haveI : IsTotal (List String) (fun p q => pathLe p q = true) := ⟨pathLe_total⟩
  haveI : IsTrans (List String) (fun p q => pathLe p q = true) :=
    ⟨fun p q r => pathLe_trans p q r⟩
  constructor
  · intro g
    refine ⟨List.sorted_insertionSort _ _, List.perm_insertionSort _ _, fun p hp => ?_⟩
    have h2 := (List.perm_insertionSort (fun p q => pathLe p q = true)
      (g.filter (fun f => !(pyStartswith ("._") (entryName f))))).mem_iff.mp hp
    have h3 := (List.mem_filter.mp h2).2
    simpa using h3
  · intro g
    exact ⟨List.sorted_insertionSort _ _, List.perm_insertionSort _ _⟩

/-- C9 witness: a concrete three-entry listing is returned sorted, and a
surviving entry is certified `._`-free. -/
theorem C9_discovery_sorted_filtered_witness :
    List.Sorted (fun p q => pathLe p q = true)
      (find_ts_files [[("b.ts")], [("a.ts")], [("._c.ts")]])
    ∧ pyStartswith ("._") (entryName [("a.ts")]) = false :=
  ⟨(C9_discovery_sorted_filtered.1 [[("b.ts")], [("a.ts")], [("._c.ts")]]).1,
   (C9_discovery_sorted_filtered.1 [[("b.ts")], [("a.ts")], [("._c.ts")]]).2.2
     [("a.ts")] (by decide)⟩

/-- C10: the verdict of `verify_compression` does not depend on its
`tolerance` parameter, and `process_file` invokes verification without
forwarding the parsed `--tolerance` value (the Python default applies), so
two invocations differing only in `--tolerance` produce identical per-file
outcomes, statistics, verdicts and messages. -/
theorem C10_tolerance_noninterference :
    (∀ (ip op : Option ProbeData) (st : FileStat) (n : Nat) (t1 t2 : ℚ),
      verify_compression ip op st n t1 = verify_compression ip op st n t2)
    ∧ (∀ (a : Args) (w : FileWorld) (stats : CompressStats) (t1 t2 : ℚ),
      process_file { a with tolerance := t1 } w stats =
        process_file { a with tolerance := t2 } w stats) :=
  ⟨fun _ _ _ _ _ _ => rfl, fun _ _ _ _ _ => rfl⟩
